import Mathlib

/-!
Shallow embedding of the Azoula Smart gateway protocol client:
`custom_components/sunricher_azoula_smart/sdk/gateway.py` (connection,
message dispatch, discovery reassembly, TSL correlation, listener registry),
`custom_components/sunricher_azoula/sdk/device.py` (TSL capability queries),
and the property-update waiter of `script/test_all.py`.  Stateful Python code
becomes explicit state passing; an `asyncio.Event` becomes a `Bool` set-flag
(an `Option Bool` where the event object may still be `None`); Python dicts
become association lists with first-match lookup; exceptions become `Except`.
The theorems at the end settle the specification claims about discovery
deduplication and completion, property-get correlation, connect error
classification, timeout behaviour, malformed-frame dispatch, TSL waiter
cleanup, capability queries and listener revocation.
-/

namespace Azoula

/-- A property value object as carried inside `params` of
`thing.event.property.post` (a dict such as
`{value: v, time: t, changeByUser: u}`), modelled as an association list. -/
abbrev PropValue := List (String × Int)

/-- A property map `params`: property identifier to value object (a dict). -/
abbrev PropertyParams := List (String × PropValue)

/-- TSL property declaration (`types.py`, `TSLProperty`). -/
structure TSLProperty where
  identifier : String
  name : String
  accessMode : String
deriving Repr, DecidableEq

/-- TSL service declaration (`types.py`, `TSLService`); `inputData` holds the
property identifiers the service accepts, which is what the
`identifier in input_data` membership test of `device.py` consults. -/
structure TSLService where
  identifier : String
  callType : String
  inputData : List String
deriving Repr, DecidableEq

/-- TSL event declaration (`types.py`, `TSLEvent`). -/
structure TSLEvent where
  identifier : String
  level : Int
deriving Repr, DecidableEq

/-- Device TSL model (`types.py`, `DeviceTSL`). -/
structure DeviceTSL where
  profile : String
  deviceType : String
  properties : List TSLProperty
  events : List TSLEvent
  services : List TSLService
deriving Repr, DecidableEq

/-- Device record (`device.py`, `AzoulaDevice`), as built by
`AzoulaDevice.from_dict` on a discovery reply entry. -/
structure AzoulaDevice where
  name : String
  device_id : String
  profile : String
  device_type : String
  product_id : String
  online : Bool
  protocol : String
  manufacturer : String
  tsl : Option DeviceTSL := none
deriving Repr, DecidableEq

/-- `AzoulaDevice.unique_id`: the device id. -/
def AzoulaDevice.unique_id (d : AzoulaDevice) : String :=
  d.device_id

/-- `AzoulaDevice.has_property`. -/
def AzoulaDevice.has_property (d : AzoulaDevice) (identifier : String) : Bool :=
  match d.tsl with
  | none => false
  | some tsl => tsl.properties.any fun prop => prop.identifier == identifier

/-- `AzoulaDevice.can_get_property`: the property must exist in the TSL and be
listed in the `inputData` of the first service whose identifier is `"get"`
(the Python `for` loop returns inside its first match). -/
def AzoulaDevice.can_get_property (d : AzoulaDevice) (identifier : String) : Bool :=
  match d.tsl with
  | none => false
  | some tsl =>
    if ¬ d.has_property identifier then false
    else
      match tsl.services.find? fun svc => svc.identifier == "get" with
      | some svc => svc.inputData.contains identifier
      | none => false

/-- Method name `thing.subdev.getall.reply` (`const.py`). -/
def METHOD_DEVICE_DISCOVER_REPLY : String := "thing.subdev.getall.reply"

/-- Method name `thing.event.property.post` (`const.py`). -/
def METHOD_PROPERTY_POST : String := "thing.event.property.post"

/-- Method name `thing.service.property.get.reply` (`const.py`). -/
def METHOD_PROPERTY_GET_REPLY : String := "thing.service.property.get.reply"

/-- Method name `thing.service.reply` (`const.py`). -/
def METHOD_SERVICE_INVOKE_REPLY : String := "thing.service.reply"

/-- Modelled from the spec: the TSL-get reply method name constant
(`METHOD_TSL_GET_REPLY`) is imported by `gateway.py` but its definition is not
among the sources; the spec lists the method pair `tsl-get / tsl-get-reply`.
Its exact string value is irrelevant to every claim. -/
def METHOD_TSL_GET_REPLY : String := "thing.tsl.get.reply"

/-- A decoded inbound JSON frame: the envelope fields that the dispatcher and
the five handlers read.  Numeric fields whose `payload.get(...)` has a default
carry the already-defaulted value; fields that may be absent or `None` are
`Option`.  `data` is the property dict read by the property-get-reply handler;
`deviceList` is the `data.deviceList` page read by the discovery handler. -/
structure Envelope where
  method : Option String := none
  code : Int := 0
  pageCount : Nat := 1
  currentPage : Nat := 1
  deviceList : List AzoulaDevice := []
  deviceID : Option String := none
  params : PropertyParams := []
  data : List (String × Int) := []
  id : Option String := none
  tsl : Option DeviceTSL := none
deriving Repr, DecidableEq

/-- The device-discovery fields of `AzoulaGateway`: accumulated devices, the
`_devices_received` event (`none` when no discovery session created one;
`some b` an event whose set-flag is `b`), expected page count and the last
page seen. -/
structure DiscoveryState where
  discovered_devices : List AzoulaDevice
  devices_received : Option Bool
  expected_page_count : Nat
  current_page : Nat
deriving Repr, DecidableEq

/-- The per-device dedup step of the discovery handler: append the device
unless one with the same `unique_id` is already accumulated. -/
def addUnique (acc : List AzoulaDevice) (device : AzoulaDevice) : List AzoulaDevice :=
  if acc.any fun d => d.unique_id == device.unique_id then acc else acc ++ [device]

/-- `AzoulaGateway._handle_device_discover_response`: a non-success `code`
sets the session event and adds nothing; otherwise the page's devices are
folded in with first-seen dedup, the page counters are recorded, and the
event is set when `current_page >= page_count`. -/
def handle_device_discover_response (st : DiscoveryState) (payload : Envelope) :
    DiscoveryState :=
  if payload.code ≠ 200 then
    { st with devices_received := st.devices_received.map fun _ => true }
  else
    let st1 :=
      if st.expected_page_count = 0 then
        { st with expected_page_count := payload.pageCount }
      else st
    let st2 :=
      { st1 with
        discovered_devices := payload.deviceList.foldl addUnique st1.discovered_devices,
        current_page := payload.currentPage }
    if payload.currentPage ≥ payload.pageCount then
      { st2 with devices_received := st2.devices_received.map fun _ => true }
    else st2

/-- The discovery state as reset at the start of `discover_devices`: fresh
(cleared) event, empty device list, zeroed page counters. -/
def initDiscovery : DiscoveryState :=
  { discovered_devices := []
    devices_received := some false
    expected_page_count := 0
    current_page := 0 }

/-- Serial processing of the discovery reply pages delivered by the MQTT
thread during one session. -/
def processPages (st : DiscoveryState) (pages : List Envelope) : DiscoveryState :=
  pages.foldl handle_device_discover_response st

/-- Errors raised by `connect` (`AzoulaGatewayError`, distinguished in the
source by the four raise sites and their messages). -/
inductive GatewayFailure where
  | connectionTimeout
  | networkError
  | authenticationFailed
  | connectionFailed (rc : Int)
deriving Repr, DecidableEq

/-- `AzoulaGateway.discover_devices` without TSL loading: `pages` are the
reply pages the I/O thread processed before the caller resumed.  The caller
catches its own `TimeoutError` and returns a copy of the accumulated list, so
it never raises. -/
def discover_devices (pages : List Envelope) :
    Except GatewayFailure (List AzoulaDevice) :=
  Except.ok (processPages initDiscovery pages).discovered_devices

/-- The 30-second discovery wait expired: no processed page set the session
event. -/
def discoveryTimedOut (pages : List Envelope) : Prop :=
  (processPages initDiscovery pages).devices_received = some false

/-- `AzoulaGateway.connect`: `netFail` models `ConnectionRefusedError`/`OSError`
from the socket connect, `ack = none` the 10-second wait elapsing with no
connect acknowledgement, `ack = some rc` the acknowledgement code stored by
`_on_connect`.  Codes 4 and 5 are the authentication-rejection set. -/
def connect (netFail : Bool) (ack : Option Int) : Except GatewayFailure Unit :=
  if netFail then Except.error GatewayFailure.networkError
  else
    match ack with
    | none => Except.error GatewayFailure.connectionTimeout
    | some rc =>
      if rc = 0 then Except.ok ()
      else if rc = 4 ∨ rc = 5 then Except.error GatewayFailure.authenticationFailed
      else Except.error (GatewayFailure.connectionFailed rc)

/-- First-match lookup in an association list (a Python dict access). -/
def alLookup {β : Type} (l : List (String × β)) (k : String) : Option β :=
  (l.find? fun kv => kv.1 == k).map Prod.snd

/-- Key membership in an association list (Python `in` on a dict). -/
def alContains {β : Type} (l : List (String × β)) (k : String) : Bool :=
  l.any fun kv => kv.1 == k

/-- Key removal from an association list (Python `dict.pop(k, None)`). -/
def alErase {β : Type} (l : List (String × β)) (k : String) : List (String × β) :=
  l.filter fun kv => ! (kv.1 == k)

/-- Key update in an association list (Python `d[k] = v`). -/
def alSet {β : Type} (l : List (String × β)) (k : String) (v : β) : List (String × β) :=
  alErase l k ++ [(k, v)]

/-- The TSL-correlation fields of `AzoulaGateway`: `_tsl_pending_requests`
(request id to event set-flag) and `_tsl_responses` (request id to the reply
payload slot). -/
structure TslState where
  tsl_pending_requests : List (String × Bool)
  tsl_responses : List (String × Option DeviceTSL)
deriving Repr, DecidableEq

/-- `AzoulaGateway._handle_tsl_reply`: replies with a falsy or unknown request
id are dropped; otherwise the response slot is filled (with the TSL payload on
a success code carrying one, `none` otherwise) and the event is set. -/
def handle_tsl_reply (st : TslState) (payload : Envelope) : TslState :=
  match payload.id with
  | none => st
  | some request_id =>
    if request_id = "" ∨ ¬ alContains st.tsl_pending_requests request_id then st
    else if payload.code ≠ 200 then
      { tsl_responses := alSet st.tsl_responses request_id none
        tsl_pending_requests := alSet st.tsl_pending_requests request_id true }
    else
      match payload.tsl with
      | some tsl_data =>
        { tsl_responses := alSet st.tsl_responses request_id (some tsl_data)
          tsl_pending_requests := alSet st.tsl_pending_requests request_id true }
      | none =>
        { tsl_responses := alSet st.tsl_responses request_id none
          tsl_pending_requests := alSet st.tsl_pending_requests request_id true }

/-- `AzoulaGateway.get_device_tsl`: register a cleared event and an empty
response slot under a fresh request id, let the replies processed before the
caller resumed act, read the response if the event was set (`none` on
timeout), then pop both entries in the `finally` block.  The `TimeoutError`
is caught, so the call never raises. -/
def get_device_tsl (st : TslState) (request_id : String) (replies : List Envelope) :
    Except GatewayFailure (Option DeviceTSL) × TslState :=
  let st1 : TslState :=
    { tsl_pending_requests := alSet st.tsl_pending_requests request_id false
      tsl_responses := alSet st.tsl_responses request_id none }
  let st2 := replies.foldl handle_tsl_reply st1
  let result : Option DeviceTSL :=
    if alLookup st2.tsl_pending_requests request_id = some true then
      (alLookup st2.tsl_responses request_id).join
    else none
  let st3 : TslState :=
    { tsl_pending_requests := alErase st2.tsl_pending_requests request_id
      tsl_responses := alErase st2.tsl_responses request_id }
  (Except.ok result, st3)

/-- The `get_device_tsl` wait expired: no processed reply set this request's
event. -/
def tslTimedOut (st : TslState) (request_id : String) (replies : List Envelope) : Prop :=
  alLookup (replies.foldl handle_tsl_reply
    { tsl_pending_requests := alSet st.tsl_pending_requests request_id false
      tsl_responses := alSet st.tsl_responses request_id none }).tsl_pending_requests
    request_id = some false

/-- Listener callbacks modelled by opaque identifiers (Python compares them
with `==`, which is identity for function objects). -/
abbrev Listener := String

/-- `CallbackEventType` values (`const.py`), modelled by their string values
so that a foreign, unsupported event type is expressible: `register_listener`
guards on membership of the event type among the dict keys. -/
abbrev EventType := String

/-- `CallbackEventType.ONLINE_STATUS`. -/
def ONLINE_STATUS : EventType := "online_status"

/-- `CallbackEventType.PROPERTY_UPDATE`. -/
def PROPERTY_UPDATE : EventType := "property_update"

/-- The `_listeners` dict: event type to its callback list. -/
abbrev ListenerMap := List (EventType × List Listener)

/-- The `_listeners` dict as built by `__init__`: both supported event types
mapped to empty callback lists. -/
def initListeners : ListenerMap := [(ONLINE_STATUS, []), (PROPERTY_UPDATE, [])]

/-- The revocation closure returned by `register_listener`: either the
`lambda: None` for unsupported event types, or the captured
`lambda: self._listeners[event_type].remove(listener)`. -/
inductive Revoke where
  | noop
  | remove (event_type : EventType) (listener : Listener)
deriving Repr, DecidableEq

/-- `AzoulaGateway.register_listener`: append the callback when the event
type is a key of the dict and return the removing closure; otherwise leave
the dict alone and return the no-op closure. -/
def register_listener (m : ListenerMap) (event_type : EventType) (listener : Listener) :
    ListenerMap × Revoke :=
  if alContains m event_type then
    (alSet m event_type ((alLookup m event_type).getD [] ++ [listener]),
     Revoke.remove event_type listener)
  else (m, Revoke.noop)

/-- Calling a revocation closure.  Python `list.remove` deletes the first
occurrence of the element and raises `ValueError` when it is absent (and a
missing dict key would raise `KeyError`); both raise paths are the `error`
case. -/
def applyRevoke (r : Revoke) (m : ListenerMap) : Except Unit ListenerMap :=
  match r with
  | Revoke.noop => Except.ok m
  | Revoke.remove event_type listener =>
    match alLookup m event_type with
    | none => Except.error ()
    | some ls =>
      if listener ∈ ls then Except.ok (alSet m event_type (ls.erase listener))
      else Except.error ()

/-- Payload handed to a listener callback. -/
inductive NotifyData where
  | status (online : Bool)
  | props (params : PropertyParams)
deriving Repr, DecidableEq

/-- One callback invocation performed by `_notify_listeners`. -/
structure Invocation where
  listener : Listener
  event_type : EventType
  dev_id : String
  data : NotifyData
deriving Repr, DecidableEq

/-- `AzoulaGateway._notify_listeners`: one invocation per callback registered
for the kind (`self._listeners.get(event_type, [])`), in registration
order. -/
def notify_listeners (m : ListenerMap) (event_type : EventType) (dev_id : String)
    (data : NotifyData) : List Invocation :=
  ((alLookup m event_type).getD []).map fun l =>
    { listener := l, event_type := event_type, dev_id := dev_id, data := data }

/-- `AzoulaGateway._handle_property_post`: drop when `deviceID` is falsy,
otherwise notify the property-update listeners with the raw `params`. -/
def handle_property_post (m : ListenerMap) (env : Envelope) : List Invocation :=
  match env.deviceID with
  | none => []
  | some device_id =>
    if device_id = "" then []
    else notify_listeners m PROPERTY_UPDATE device_id (NotifyData.props env.params)

/-- `AzoulaGateway._handle_property_get_reply`: drop on a non-success code or
falsy `deviceID`/`data`, otherwise notify the property-update listeners with
each value wrapped as `{"value": v}`. -/
def handle_property_get_reply (m : ListenerMap) (env : Envelope) : List Invocation :=
  if env.code ≠ 200 then []
  else
    match env.deviceID with
    | none => []
    | some device_id =>
      if device_id = "" ∨ env.data = [] then []
      else
        notify_listeners m PROPERTY_UPDATE device_id
          (NotifyData.props (env.data.map fun kv => (kv.1, [("value", kv.2)])))

/-- The whole client state touched by the message dispatcher. -/
structure GatewayState where
  discovery : DiscoveryState
  tsl : TslState
  listeners : ListenerMap
deriving Repr, DecidableEq

/-- An inbound MQTT frame after `_on_message`'s decode step: either a payload
that failed `json.loads` (the caught `JSONDecodeError`) or a decoded
envelope. -/
inductive InMsg where
  | malformed
  | valid (env : Envelope)
deriving Repr, DecidableEq

/-- `AzoulaGateway._on_message`: malformed payloads and frames with a falsy
`method` are logged and dropped; otherwise the method is looked up in the
handler table, unknown methods being logged no-ops.  The result is the new
client state and the listener invocations performed. -/
def on_message (st : GatewayState) (msg : InMsg) : GatewayState × List Invocation :=
  match msg with
  | InMsg.malformed => (st, [])
  | InMsg.valid env =>
    match env.method with
    | none => (st, [])
    | some method =>
      if method = "" then (st, [])
      else if method = METHOD_DEVICE_DISCOVER_REPLY then
        ({ st with discovery := handle_device_discover_response st.discovery env }, [])
      else if method = METHOD_PROPERTY_POST then
        (st, handle_property_post st.listeners env)
      else if method = METHOD_PROPERTY_GET_REPLY then
        (st, handle_property_get_reply st.listeners env)
      else if method = METHOD_SERVICE_INVOKE_REPLY then
        (st, [])
      else if method = METHOD_TSL_GET_REPLY then
        ({ st with tsl := handle_tsl_reply st.tsl env }, [])
      else (st, [])

/-- The waiter fields of `GatewayTester` (`script/test_all.py`) used by
`_wait_for_property_update` and `_on_property_update`. -/
structure WaitState where
  pending_property_device_id : Option String
  pending_property_names : Option (List String)
  event_set : Bool
  last_property_params : Option PropertyParams
deriving Repr, DecidableEq

/-- `GatewayTester._on_property_update`: trigger when the update is for the
pending device and, when a name set is pending, some pending name is a key of
the update's `params` (`any(prop in params for prop in names)`). -/
def on_property_update (st : WaitState) (dev_id : String) (params : PropertyParams) :
    WaitState :=
  if st.pending_property_device_id = some dev_id then
    match st.pending_property_names with
    | some names =>
      if names.any fun prop => params.any fun kv => kv.1 == prop then
        { st with last_property_params := some params, event_set := true }
      else st
    | none => { st with last_property_params := some params, event_set := true }
  else st

/-- The wait loop serialized: deliver events to the callback until the waiter
observes the set event and resumes (so later deliveries no longer affect what
it read). -/
def runWait (st : WaitState) : List (String × PropertyParams) → WaitState
  | [] => st
  | e :: rest =>
    if st.event_set then st else runWait (on_property_update st e.1 e.2) rest

/-- `GatewayTester._wait_for_property_update` for an explicit property list,
as used after `get_device_properties(device_id, props)`: an empty list is
falsy in `set(property_names) if property_names else None`, so it pends no
name set at all.  Returns the stored params when the event was set within the
timeout, `None` otherwise. -/
def wait_for_property_update (device_id : String) (property_names : List String)
    (events : List (String × PropertyParams)) : Option PropertyParams :=
  let st0 : WaitState :=
    { pending_property_device_id := some device_id
      pending_property_names :=
        if property_names.isEmpty then none else some property_names
      event_set := false
      last_property_params := none }
  let st1 := runWait st0 events
  if st1.event_set then st1.last_property_params else none

/-- The device records accepted by the reassembler across a page sequence:
the concatenation, in delivery order, of the device lists of the pages whose
`code` is 200 (non-success pages contribute nothing). -/
def successRecords : List Envelope → List AzoulaDevice
  | [] => []
  | p :: ps => if p.code = 200 then p.deviceList ++ successRecords ps else successRecords ps

theorem alContains_alErase {β : Type} (l : List (String × β)) (k : String) :
    alContains (alErase l k) k = false := by
  simp only [alContains, alErase, List.any_eq_false]
  intro kv hkv
  simp only [List.mem_filter] at hkv
  simpa using hkv.2

theorem alLookup_alSet {β : Type} (l : List (String × β)) (k : String) (v : β) :
    alLookup (alSet l k v) k = some v := by
  have hnone : (alErase l k).find? (fun kv => kv.1 == k) = none := by
    simp only [List.find?_eq_none, alErase]
    intro kv hkv
    simp only [List.mem_filter] at hkv
    simpa using hkv.2
  simp [alLookup, alSet, List.find?_append, hnone]

theorem alLookup_eq_none {β : Type} (l : List (String × β)) (k : String)
    (h : alContains l k = false) : alLookup l k = none := by
  unfold alLookup
  have hfind : l.find? (fun kv => kv.1 == k) = none := by
    rw [List.find?_eq_none]
    simp only [alContains, List.any_eq_false] at h
    exact h
  rw [hfind]
  rfl

theorem handler_devices_eq (st : DiscoveryState) (p : Envelope) :
    (handle_device_discover_response st p).discovered_devices =
      if p.code = 200 then p.deviceList.foldl addUnique st.discovered_devices
      else st.discovered_devices := by
  unfold handle_device_discover_response
  by_cases hc : p.code = 200
  · by_cases h1 : st.expected_page_count = 0 <;>
      by_cases h2 : p.currentPage ≥ p.pageCount <;>
      simp [hc, h1, h2]
  · simp [hc]

theorem handler_received_eq (st : DiscoveryState) (p : Envelope) (b : Bool)
    (h : st.devices_received = some b) :
    (handle_device_discover_response st p).devices_received =
      some (b || decide (p.code ≠ 200) || decide (p.pageCount ≤ p.currentPage)) := by
  unfold handle_device_discover_response
  by_cases hc : p.code = 200
  · by_cases h1 : st.expected_page_count = 0 <;>
      by_cases h2 : p.currentPage ≥ p.pageCount <;>
      simp [hc, h1, h2, h, ge_iff_le]
  · simp [hc, h]

theorem processPages_devices (pages : List Envelope) :
    ∀ st : DiscoveryState, (processPages st pages).discovered_devices =
      (successRecords pages).foldl addUnique st.discovered_devices := by
  induction pages with
  | nil => intro st; simp [processPages, successRecords]
  | cons p ps ih =>
    intro st
    have hstep : processPages st (p :: ps) =
        processPages (handle_device_discover_response st p) ps := by
      simp [processPages]
    rw [hstep, ih]
    by_cases hc : p.code = 200
    · simp [successRecords, hc, handler_devices_eq, List.foldl_append]
    · simp [successRecords, hc, handler_devices_eq]

/-- The invariant tying the accumulated list to the records seen so far:
accumulated ids are pairwise distinct, every accumulated record is the first
seen record with its id, and every seen id is represented. -/
def dedupInv (seen acc : List AzoulaDevice) : Prop :=
  (acc.map AzoulaDevice.unique_id).Nodup ∧
  (∀ d ∈ acc, seen.find? (fun e => e.unique_id == d.unique_id) = some d) ∧
  (∀ e ∈ seen, acc.any (fun d => d.unique_id == e.unique_id) = true)

theorem dedupInv_step (seen acc : List AzoulaDevice) (r : AzoulaDevice)
    (h : dedupInv seen acc) : dedupInv (seen ++ [r]) (addUnique acc r) := by
  obtain ⟨hnd, hfirst, hrep⟩ := h
  unfold addUnique
  by_cases hmem : acc.any (fun d => d.unique_id == r.unique_id) = true
  · rw [if_pos hmem]
    refine ⟨hnd, ?_, ?_⟩
    · intro d hd
      simp [List.find?_append, hfirst d hd]
    · intro e he
      rcases List.mem_append.mp he with he' | he'
      · exact hrep e he'
      · simp only [List.mem_singleton] at he'
        subst he'
        exact hmem
  · rw [if_neg hmem]
    have hfresh : ∀ d ∈ acc, d.unique_id ≠ r.unique_id := by
      intro d hd heq
      apply hmem
      simp only [List.any_eq_true]
      exact ⟨d, hd, by simp [heq]⟩
    have hseen_none : seen.find? (fun e => e.unique_id == r.unique_id) = none := by
      rw [List.find?_eq_none]
      intro e he
      intro hbeq
      have heq : e.unique_id = r.unique_id := by simpa using hbeq
      have := hrep e he
      simp only [List.any_eq_true] at this
      obtain ⟨d, hd, hde⟩ := this
      have : d.unique_id = e.unique_id := by simpa using hde
      exact hfresh d hd (this.trans heq)
    refine ⟨?_, ?_, ?_⟩
    · simp only [List.map_append, List.map_singleton]
      rw [List.nodup_append]
      refine ⟨hnd, List.nodup_singleton _, ?_⟩
      intro x hx
      simp only [List.mem_map] at hx
      obtain ⟨d, hd, hdx⟩ := hx
      simp only [List.mem_singleton]
      rw [← hdx]
      exact hfresh d hd
    · intro d hd
      rcases List.mem_append.mp hd with hd' | hd'
      · simp [List.find?_append, hfirst d hd']
      · simp only [List.mem_singleton] at hd'
        subst hd'
        simp [List.find?_append, hseen_none]
    · intro e he
      rcases List.mem_append.mp he with he' | he'
      · have := hrep e he'
        simp only [List.any_eq_true] at this ⊢
        obtain ⟨d, hd, hde⟩ := this
        exact ⟨d, List.mem_append.mpr (Or.inl hd), hde⟩
      · simp only [List.mem_singleton] at he'
        subst he'
        simp [List.any_eq_true]

theorem dedupInv_fold (recs : List AzoulaDevice) :
    ∀ seen acc : List AzoulaDevice, dedupInv seen acc →
      dedupInv (seen ++ recs) (recs.foldl addUnique acc) := by
  induction recs with
  | nil => intro seen acc h; simpa using h
  | cons r rs ih =>
    intro seen acc h
    have : seen ++ r :: rs = (seen ++ [r]) ++ rs := by simp
    rw [this]
    exact ih (seen ++ [r]) (addUnique acc r) (dedupInv_step seen acc r h)

/-- Sample device record. -/
def devA : AzoulaDevice :=
  { name := "Lamp A", device_id := "A", profile := "zigbee", device_type := "light"
    product_id := "p1", online := true, protocol := "zigbee", manufacturer := "m" }

/-- A later record repeating `devA`'s device id with a different payload. -/
def devA2 : AzoulaDevice := { devA with name := "Lamp A duplicate" }

/-- Sample device record with a second id. -/
def devB : AzoulaDevice := { devA with name := "Lamp B", device_id := "B" }

/-- Discovery reply page 1 of 2 carrying `devA`. -/
def pageEx1 : Envelope :=
  { method := some METHOD_DEVICE_DISCOVER_REPLY, code := 200, pageCount := 2
    currentPage := 1, deviceList := [devA] }

/-- Discovery reply page 2 of 2 repeating id `A` and adding `devB`. -/
def pageEx2 : Envelope :=
  { method := some METHOD_DEVICE_DISCOVER_REPLY, code := 200, pageCount := 2
    currentPage := 2, deviceList := [devA2, devB] }

/-- C1: for every sequence of discovery reply pages processed by
`_handle_device_discover_response` within a session, the accumulated device
list holds each `device_id` exactly once (its ids are pairwise distinct and
every id that appeared on an accepted page is represented), and each kept
record is the first record bearing its id among the accepted pages' records
in delivery order — later records for the same id are discarded.
Non-success pages contribute no records at all. -/
theorem C1_discovery_dedup_first_seen (pages : List Envelope) :
    ((processPages initDiscovery pages).discovered_devices.map
      AzoulaDevice.unique_id).Nodup ∧
    (∀ d ∈ (processPages initDiscovery pages).discovered_devices,
      (successRecords pages).find? (fun e => e.unique_id == d.unique_id) = some d) ∧
    (∀ e ∈ successRecords pages,
      (processPages initDiscovery pages).discovered_devices.any
        (fun d => d.unique_id == e.unique_id) = true) := by
  have hdev : (processPages initDiscovery pages).discovered_devices =
      (successRecords pages).foldl addUnique [] := by
    rw [processPages_devices]
    rfl
  have hinv := dedupInv_fold (successRecords pages) [] []
    ⟨by simp, by simp, by simp⟩
  rw [List.nil_append] at hinv
  rw [hdev]
  exact hinv

/-- C1 witness: page 1/2 with device `A`, then page 2/2 with a repeated `A`
and a new `B`: the kept ids are distinct and the record kept for `A` is the
page-1 record. -/
theorem C1_witness :
    ((processPages initDiscovery [pageEx1, pageEx2]).discovered_devices.map
      AzoulaDevice.unique_id).Nodup ∧
    (successRecords [pageEx1, pageEx2]).find?
      (fun e => e.unique_id == devA.unique_id) = some devA :=
  ⟨(C1_discovery_dedup_first_seen [pageEx1, pageEx2]).1,
   (C1_discovery_dedup_first_seen [pageEx1, pageEx2]).2.1 devA (by decide)⟩

/-- C2: within a discovery session the handler leaves the completion event
set exactly when it was already set, the page's `code` is non-success, or the
page satisfies `currentPage >= pageCount`; a non-success page adds no
devices; and `discover_devices` returns the accumulated devices (as an `ok`
value, never a failure) whatever the processed pages were. -/
theorem C2_discovery_completion (st : DiscoveryState) (p : Envelope) (b : Bool)
    (h : st.devices_received = some b) :
    ((handle_device_discover_response st p).devices_received = some true ↔
      (b = true ∨ p.code ≠ 200 ∨ p.pageCount ≤ p.currentPage)) ∧
    (p.code ≠ 200 →
      (handle_device_discover_response st p).discovered_devices =
        st.discovered_devices) ∧
    (∀ pages : List Envelope,
      discover_devices pages =
        Except.ok (processPages initDiscovery pages).discovered_devices) := by
  refine ⟨?_, ?_, fun pages => rfl⟩
  · rw [handler_received_eq st p b h]
    simp only [Option.some.injEq, Bool.or_eq_true, decide_eq_true_eq]
    exact or_assoc
  · intro hc
    rw [handler_devices_eq]
    simp [hc]

/-- C2 witness: from a fresh session, a success page with
`currentPage = pageCount = 2` sets the completion event. -/
theorem C2_witness :
    (handle_device_discover_response initDiscovery pageEx2).devices_received =
      some true :=
  ((C2_discovery_completion initDiscovery pageEx2 false rfl).1).mpr (by decide)

theorem runWait_of_set (st : WaitState) (h : st.event_set = true)
    (l : List (String × PropertyParams)) : runWait st l = st := by
  cases l <;> simp [runWait, h]

theorem runWait_resolves (device_id : String) (names : List String)
    (events : List (String × PropertyParams)) :
    (if (runWait
        { pending_property_device_id := some device_id
          pending_property_names := some names
          event_set := false
          last_property_params := none } events).event_set then
      (runWait
        { pending_property_device_id := some device_id
          pending_property_names := some names
          event_set := false
          last_property_params := none } events).last_property_params
    else none) =
      (events.find? (fun e => device_id == e.1 &&
        names.any fun prop => e.2.any fun kv => kv.1 == prop)).map Prod.snd := by
  induction events with
  | nil => simp [runWait]
  | cons e es ih =>
    rw [runWait]
    simp only [Bool.false_eq_true, if_false]
    by_cases hdev : device_id = e.1
    · by_cases hmat : (names.any fun prop => e.2.any fun kv => kv.1 == prop) = true
      · have hupd : on_property_update
            { pending_property_device_id := some device_id
              pending_property_names := some names
              event_set := false
              last_property_params := none } e.1 e.2 =
            { pending_property_device_id := some device_id
              pending_property_names := some names
              event_set := true
              last_property_params := some e.2 } := by
          simp [on_property_update, hdev, hmat]
        rw [hupd, runWait_of_set _ rfl]
        have hpred : (device_id == e.1 &&
            names.any fun prop => e.2.any fun kv => kv.1 == prop) = true := by
          simp [hdev, hmat]
        have hfind : List.find? (fun e => device_id == e.1 &&
            names.any fun prop => e.2.any fun kv => kv.1 == prop) (e :: es) = some e := by
          apply List.find?_cons_of_pos
          exact hpred
        rw [hfind]
        rfl
      · have hupd : on_property_update
            { pending_property_device_id := some device_id
              pending_property_names := some names
              event_set := false
              last_property_params := none } e.1 e.2 =
            { pending_property_device_id := some device_id
              pending_property_names := some names
              event_set := false
              last_property_params := none } := by
          simp [on_property_update, hdev, hmat]
        rw [hupd]
        have hfind : List.find? (fun e => device_id == e.1 &&
            names.any fun prop => e.2.any fun kv => kv.1 == prop) (e :: es) =
            List.find? (fun e => device_id == e.1 &&
              names.any fun prop => e.2.any fun kv => kv.1 == prop) es := by
          apply List.find?_cons_of_neg
          simp [hmat]
        rw [hfind]
        exact ih
    · have hupd : on_property_update
          { pending_property_device_id := some device_id
            pending_property_names := some names
            event_set := false
            last_property_params := none } e.1 e.2 =
          { pending_property_device_id := some device_id
            pending_property_names := some names
            event_set := false
            last_property_params := none } := by
        simp [on_property_update, hdev]
      rw [hupd]
      have hfind : List.find? (fun e => device_id == e.1 &&
          names.any fun prop => e.2.any fun kv => kv.1 == prop) (e :: es) =
          List.find? (fun e => device_id == e.1 &&
            names.any fun prop => e.2.any fun kv => kv.1 == prop) es := by
        apply List.find?_cons_of_neg
        simp [hdev]
      rw [hfind]
      exact ih

/-- A sample property-update payload whose single key is `OnOff`. -/
def propsX : PropertyParams := [("OnOff", [("value", 1)])]

/-- C3 counterexample: requesting an empty property list makes the waiter
pend no name set at all (`set(property_names) if property_names else None`),
so an update for the device whose key set has empty intersection with the
requested properties still resolves the wait with that payload instead of
timing out to an absent result. -/
theorem C3_cex_empty_props :
    wait_for_property_update "d" [] [("d", propsX)] = some propsX ∧
    (∀ prop ∈ ([] : List String), ¬ (propsX.any fun kv => kv.1 == prop) = true) ∧
    wait_for_property_update "d" [] [("d", propsX)] ≠ none := by
  refine ⟨by decide, by decide, by decide⟩

/-- C3 amended: provided the requested property list is non-empty, the wait
after `get_device_properties(device_id, props)` resolves with the full
payload of the first subsequent property-update event for that device whose
key set intersects `props`, and yields the absent result (timeout) when no
such event arrives. -/
theorem C3_property_wait_resolution (device_id : String) (props : List String)
    (events : List (String × PropertyParams)) (h : props ≠ []) :
    wait_for_property_update device_id props events =
      (events.find? (fun e => device_id == e.1 &&
        props.any fun prop => e.2.any fun kv => kv.1 == prop)).map Prod.snd := by
  have hne : props.isEmpty = false := by
    cases hp : props.isEmpty
    · rfl
    · exact absurd (List.isEmpty_iff.mp hp) h
  unfold wait_for_property_update
  simp only [hne, Bool.false_eq_true, if_false]
  exact runWait_resolves device_id props events

/-- C3 witness: waiting for `OnOff` resolves with the payload of the first
matching update. -/
theorem C3_witness :
    wait_for_property_update "d" ["OnOff"] [("d", propsX)] =
      (([("d", propsX)] : List (String × PropertyParams)).find?
        (fun e => "d" == e.1 &&
          ["OnOff"].any fun prop => e.2.any fun kv => kv.1 == prop)).map Prod.snd :=
  C3_property_wait_resolution "d" ["OnOff"] [("d", propsX)] (by decide)

/-- C4: a connect acknowledgement code of 0 succeeds; a code in the
authentication-rejection set `{4, 5}` fails with the authentication error and
never with the generic connection-failed error; any other non-zero code fails
with the generic connection-failed error carrying that code. -/
theorem C4_connect_ack_classification (rc : Int) :
    (rc = 0 → connect false (some rc) = Except.ok ()) ∧
    ((rc = 4 ∨ rc = 5) →
      connect false (some rc) = Except.error GatewayFailure.authenticationFailed ∧
      ∀ c : Int, connect false (some rc) ≠
        Except.error (GatewayFailure.connectionFailed c)) ∧
    (rc ≠ 0 → ¬ (rc = 4 ∨ rc = 5) →
      connect false (some rc) = Except.error (GatewayFailure.connectionFailed rc)) := by
  refine ⟨?_, ?_, ?_⟩
  · intro h
    simp [connect, h]
  · intro h
    have h0 : ¬ rc = 0 := by rcases h with h | h <;> omega
    refine ⟨by simp [connect, h0, h], ?_⟩
    intro c
    simp [connect, h0, h]
  · intro h0 h45
    simp [connect, h0, h45]

/-- C4 witness: acknowledgement code 5 yields the authentication error. -/
theorem C4_witness :
    connect false (some 5) = Except.error GatewayFailure.authenticationFailed :=
  ((C4_connect_ack_classification 5).2.1 (Or.inr rfl)).1

/-- C5 counterexample: a discovery session that times out after processing
page 1 of 2 returns the one accumulated device, not an empty device list as
the claim states. -/
theorem C5_cex_partial_discovery_on_timeout :
    discoveryTimedOut [pageEx1] ∧
    discover_devices [pageEx1] = Except.ok [devA] ∧
    ([devA] : List AzoulaDevice) ≠ [] := by
  refine ⟨by unfold discoveryTimedOut; decide, by rfl, by decide⟩

/-- C5 amended: on timeout `discover_devices` returns, without raising, the
devices accumulated so far (a possibly empty list, not necessarily empty);
`get_device_tsl` returns, without raising, the absent result; `connect` alone
turns expiry of its 10-second wait into a raised failure. -/
theorem C5_timeout_behaviour (pages : List Envelope) (st : TslState)
    (request_id : String) (replies : List Envelope)
    (_hd : discoveryTimedOut pages) (ht : tslTimedOut st request_id replies) :
    discover_devices pages =
      Except.ok (processPages initDiscovery pages).discovered_devices ∧
    (get_device_tsl st request_id replies).1 = Except.ok none ∧
    connect false none = Except.error GatewayFailure.connectionTimeout := by
  refine ⟨rfl, ?_, rfl⟩
  unfold tslTimedOut at ht
  unfold get_device_tsl
  simp [ht]

/-- C5 witness: the timed-out discovery of page 1/2 and a TSL request with no
reply yield non-raising results, while connect timeout is an error. -/
theorem C5_witness :
    (get_device_tsl ⟨[], []⟩ "r" []).1 = Except.ok none ∧
    connect false none = Except.error GatewayFailure.connectionTimeout :=
  ⟨(C5_timeout_behaviour [pageEx1] ⟨[], []⟩ "r" []
      (by unfold discoveryTimedOut; decide) (by unfold tslTimedOut; decide)).2.1,
   (C5_timeout_behaviour [pageEx1] ⟨[], []⟩ "r" []
      (by unfold discoveryTimedOut; decide) (by unfold tslTimedOut; decide)).2.2⟩

/-- The methods that have an entry in `_on_message`'s handler table. -/
def handledMethods : List String :=
  [METHOD_DEVICE_DISCOVER_REPLY, METHOD_PROPERTY_POST, METHOD_PROPERTY_GET_REPLY,
   METHOD_SERVICE_INVOKE_REPLY, METHOD_TSL_GET_REPLY]

/-- A sample gateway state. -/
def gwEx : GatewayState :=
  { discovery := initDiscovery
    tsl := { tsl_pending_requests := [], tsl_responses := [] }
    listeners := initListeners }

/-- A frame whose method matches no handler. -/
def envFoo : Envelope := { method := some "thing.unknown" }

/-- C6: a frame whose payload failed JSON decoding, or which lacks a `method`
field (or carries a falsy one), or whose method matches no handler, leaves
the whole client state unchanged and performs no listener invocation — it is
only logged and dropped (the decode error is caught, so nothing raises). -/
theorem C6_malformed_frames_dropped (st : GatewayState) (env : Envelope) :
    on_message st InMsg.malformed = (st, []) ∧
    (env.method = none → on_message st (InMsg.valid env) = (st, [])) ∧
    (∀ m, env.method = some m → m ∉ handledMethods →
      on_message st (InMsg.valid env) = (st, [])) := by
  refine ⟨rfl, ?_, ?_⟩
  · intro h
    simp [on_message, h]
  · intro m hm hmem
    simp only [handledMethods, List.mem_cons, List.not_mem_nil, or_false,
      not_or] at hmem
    obtain ⟨h1, h2, h3, h4, h5⟩ := hmem
    by_cases h0 : m = ""
    · simp [on_message, hm, h0]
    · simp [on_message, hm, h0, h1, h2, h3, h4, h5]

/-- C6 witness: an unknown method on a concrete state is a no-op with no
invocations. -/
theorem C6_witness : on_message gwEx (InMsg.valid envFoo) = (gwEx, []) :=
  (C6_malformed_frames_dropped gwEx envFoo).2.2 "thing.unknown" rfl (by decide)

/-- C7: after `get_device_tsl` returns — by reply, failure reply or timeout —
its request id is gone from both the pending-request and the response maps
(the `finally` cleanup), and a TSL reply whose id is absent (or missing)
leaves the TSL state unchanged. -/
theorem C7_tsl_cleanup_and_stale (st : TslState) (request_id : String)
    (replies : List Envelope) (st0 : TslState) (p : Envelope) :
    alContains (get_device_tsl st request_id replies).2.tsl_pending_requests
      request_id = false ∧
    alContains (get_device_tsl st request_id replies).2.tsl_responses
      request_id = false ∧
    (∀ rid, p.id = some rid → alContains st0.tsl_pending_requests rid = false →
      handle_tsl_reply st0 p = st0) ∧
    (p.id = none → handle_tsl_reply st0 p = st0) := by
  refine ⟨?_, ?_, ?_, ?_⟩
  · exact alContains_alErase _ _
  · exact alContains_alErase _ _
  · intro rid hid hc
    simp [handle_tsl_reply, hid, hc]
  · intro h
    simp [handle_tsl_reply, h]

/-- C7 witness: a concrete session with a failure reply removes its id, and a
stale reply for an unknown id is a no-op. -/
theorem C7_witness :
    alContains (get_device_tsl ⟨[], []⟩ "q"
      [{ method := some METHOD_TSL_GET_REPLY, code := 500, id := some "q" }]
      ).2.tsl_pending_requests "q" = false ∧
    handle_tsl_reply ⟨[], []⟩
      { method := some METHOD_TSL_GET_REPLY, code := 200, id := some "stale" } =
      (⟨[], []⟩ : TslState) :=
  ⟨(C7_tsl_cleanup_and_stale ⟨[], []⟩ "q"
      [{ method := some METHOD_TSL_GET_REPLY, code := 500, id := some "q" }]
      ⟨[], []⟩
      { method := some METHOD_TSL_GET_REPLY, code := 200, id := some "stale" }).1,
   (C7_tsl_cleanup_and_stale ⟨[], []⟩ "q"
      [{ method := some METHOD_TSL_GET_REPLY, code := 500, id := some "q" }]
      ⟨[], []⟩
      { method := some METHOD_TSL_GET_REPLY, code := 200, id := some "stale" }
      ).2.2.1 "stale" rfl (by decide)⟩

/-- C8: under the TSL invariant of unique service identifiers,
`can_get_property(id)` is true exactly when the identifier occurs among the
TSL property declarations and is listed in the `inputData` of the service
whose identifier is `"get"`; it is false whenever the device has no TSL (and
the iff makes it false when the property is absent or no `"get"` service
exists). -/
theorem C8_can_get_property_iff (d : AzoulaDevice) (tsl : DeviceTSL)
    (identifier : String) (hd : d.tsl = some tsl)
    (hu : (tsl.services.map TSLService.identifier).Nodup) :
    (d.can_get_property identifier = true ↔
      ((∃ prop ∈ tsl.properties, prop.identifier = identifier) ∧
       ∃ svc ∈ tsl.services, svc.identifier = "get" ∧ identifier ∈ svc.inputData)) ∧
    (∀ d2 : AzoulaDevice, d2.tsl = none → d2.can_get_property identifier = false) := by
  constructor
  · simp only [AzoulaDevice.can_get_property, AzoulaDevice.has_property, hd]
    by_cases hp : (tsl.properties.any fun prop => prop.identifier == identifier) = true
    · rw [if_neg (by simp [hp])]
      have hprops : ∃ prop ∈ tsl.properties, prop.identifier = identifier := by
        simpa [List.any_eq_true] using hp
      cases hfind : tsl.services.find? (fun svc => svc.identifier == "get") with
      | none =>
        simp only []
        constructor
        · intro hfalse
          cases hfalse
        · rintro ⟨-, svc, hsvc, hget, -⟩
          rw [List.find?_eq_none] at hfind
          exact absurd (by simp [hget]) (hfind svc hsvc)
      | some svc0 =>
        have hmem0 := List.mem_of_find?_eq_some hfind
        have hget0 : svc0.identifier = "get" := by
          have := List.find?_some hfind
          simpa using this
        simp only []
        constructor
        · intro hcont
          exact ⟨hprops, svc0, hmem0, hget0, by simpa using hcont⟩
        · rintro ⟨-, svc, hsvc, hget, hin⟩
          have heq : svc = svc0 :=
            List.inj_on_of_nodup_map hu hsvc hmem0 (by rw [hget, hget0])
          rw [← heq]
          simpa using hin
    · rw [if_pos (by simp [hp])]
      constructor
      · intro hfalse
        cases hfalse
      · rintro ⟨⟨prop, hmem, hid⟩, -⟩
        exact absurd (by simp [List.any_eq_true]; exact ⟨prop, hmem, hid⟩) hp
  · intro d2 h2
    simp [AzoulaDevice.can_get_property, h2]

/-- Sample TSL with an `OnOff` property listed in the `"get"` service's
inputs. -/
def tslEx : DeviceTSL :=
  { profile := "pf", deviceType := "dt"
    properties := [{ identifier := "OnOff", name := "OnOff", accessMode := "rw" }]
    events := []
    services := [{ identifier := "get", callType := "async", inputData := ["OnOff"] }] }

/-- Sample device carrying `tslEx`. -/
def devT : AzoulaDevice := { devA with device_id := "T", tsl := some tslEx }

/-- C8 witness: `OnOff` is declared and listed in the `"get"` service, so it
is gettable. -/
theorem C8_witness : devT.can_get_property "OnOff" = true :=
  ((C8_can_get_property_iff devT tslEx "OnOff" rfl (by decide)).1).mpr (by decide)

/-- C9 counterexample: registering a callback and calling the returned revoke
closure twice: the first call removes the callback, the second raises
(`list.remove` on an absent element), so revocation is not idempotent as the
claim states. -/
theorem C9_cex_second_revoke_raises :
    (register_listener initListeners ONLINE_STATUS "cb").2 =
      Revoke.remove ONLINE_STATUS "cb" ∧
    applyRevoke (Revoke.remove ONLINE_STATUS "cb")
      (register_listener initListeners ONLINE_STATUS "cb").1 =
      Except.ok (alSet (register_listener initListeners ONLINE_STATUS "cb").1
        ONLINE_STATUS []) ∧
    applyRevoke (Revoke.remove ONLINE_STATUS "cb")
      (alSet (register_listener initListeners ONLINE_STATUS "cb").1
        ONLINE_STATUS []) = Except.error () := by
  refine ⟨rfl, rfl, rfl⟩

/-- C9 amended: for a listener registered exactly once, the first call of its
revoke closure removes it, after which no notification for that event type
reaches it; but calling the same revoke closure a second time raises an
error (the list removal fails on the now-absent element) instead of leaving
the lists unchanged. -/
theorem C9_revoke_single_registration (m : ListenerMap) (event_type : EventType)
    (listener : Listener) (ls : List Listener)
    (hl : alLookup m event_type = some ls) (hc : ls.count listener = 1) :
    applyRevoke (Revoke.remove event_type listener) m =
      Except.ok (alSet m event_type (ls.erase listener)) ∧
    listener ∉ ls.erase listener ∧
    (∀ dev_id data, ((notify_listeners (alSet m event_type (ls.erase listener))
        event_type dev_id data).all fun inv => inv.listener != listener) = true) ∧
    applyRevoke (Revoke.remove event_type listener)
      (alSet m event_type (ls.erase listener)) = Except.error () := by
  have hmem : listener ∈ ls := by
    have hpos : 0 < ls.count listener := by omega
    exact List.count_pos_iff.mp hpos
  have hnotmem : listener ∉ ls.erase listener := by
    apply List.count_eq_zero.mp
    rw [List.count_erase_self, hc]
  refine ⟨?_, hnotmem, ?_, ?_⟩
  · simp [applyRevoke, hl, hmem]
  · intro dev_id data
    rw [List.all_eq_true]
    intro inv hinv
    simp only [notify_listeners, alLookup_alSet, Option.getD_some,
      List.mem_map] at hinv
    obtain ⟨l, hlmem, hlinv⟩ := hinv
    rw [← hlinv]
    simp only [bne_iff_ne, ne_eq]
    intro heq
    rw [heq] at hlmem
    exact hnotmem hlmem
  · simp [applyRevoke, alLookup_alSet, hnotmem]

/-- Sample listener map with two callbacks registered for online-status. -/
def mEx : ListenerMap := alSet initListeners ONLINE_STATUS ["a", "b"]

/-- C9 witness: revoking `"a"` from `mEx` succeeds once and errors the second
time. -/
theorem C9_witness :
    applyRevoke (Revoke.remove ONLINE_STATUS "a") mEx =
      Except.ok (alSet mEx ONLINE_STATUS (["a", "b"].erase "a")) ∧
    applyRevoke (Revoke.remove ONLINE_STATUS "a")
      (alSet mEx ONLINE_STATUS (["a", "b"].erase "a")) = Except.error () :=
  ⟨(C9_revoke_single_registration mEx ONLINE_STATUS "a" ["a", "b"]
      (by decide) (by decide)).1,
   (C9_revoke_single_registration mEx ONLINE_STATUS "a" ["a", "b"]
      (by decide) (by decide)).2.2.2⟩

/-- C10: for an event type that is not a key of the listener dict,
`register_listener` registers nothing (the map is unchanged), returns the
no-op revoke closure (which succeeds on any map, changing nothing),
notifications for that event type invoke nobody, and notifications after the
registration are exactly those before it, so the listener is never invoked
on account of the registration. -/
theorem C10_register_unknown_event_type (m : ListenerMap) (event_type : EventType)
    (listener : Listener) (h : alContains m event_type = false) :
    (register_listener m event_type listener).1 = m ∧
    (register_listener m event_type listener).2 = Revoke.noop ∧
    (∀ m2 : ListenerMap, applyRevoke Revoke.noop m2 = Except.ok m2) ∧
    (∀ dev_id data, notify_listeners m event_type dev_id data = []) ∧
    (∀ et dev_id data,
      notify_listeners (register_listener m event_type listener).1 et dev_id data =
        notify_listeners m et dev_id data) := by
  have hreg : register_listener m event_type listener = (m, Revoke.noop) := by
    simp [register_listener, h]
  refine ⟨by rw [hreg], by rw [hreg], fun m2 => rfl, ?_, ?_⟩
  · intro dev_id data
    simp [notify_listeners, alLookup_eq_none m event_type h]
  · intro et dev_id data
    rw [hreg]

/-- C10 witness: registering for an unsupported event type on the initial
listener dict changes nothing and notifies nobody. -/
theorem C10_witness :
    (register_listener initListeners "scene_event" "cb2").1 = initListeners ∧
    (register_listener initListeners "scene_event" "cb2").2 = Revoke.noop ∧
    notify_listeners initListeners "scene_event" "gw" (NotifyData.status true) = [] :=
  ⟨(C10_register_unknown_event_type initListeners "scene_event" "cb2" (by decide)).1,
   (C10_register_unknown_event_type initListeners "scene_event" "cb2" (by decide)).2.1,
   (C10_register_unknown_event_type initListeners "scene_event" "cb2"
      (by decide)).2.2.2.1 "gw" (NotifyData.status true)⟩

end Azoula
